import Mathlib

/-!
Verification of the RBAC authorization kernel of the `nextjs-dashboard`
repository: a shallow embedding of `app/lib/rbac-core.ts`,
`app/lib/rbac.ts`, the duplicate self-contained RBAC module, and the
invoice server actions of `app/lib/actions.ts`, with theorems settling
the specified properties.
-/

namespace Rbac

/-- The closed role set, the keys of the `roleRank` record in
`app/lib/rbac-core.ts` (the `Role` type of `app/lib/definitions`). -/
inductive Role
  | viewer
  | editor
  | admin
deriving DecidableEq, Repr, Fintype

/-- `roleRank` from `app/lib/rbac-core.ts`: viewer=1, editor=2, admin=3. -/
def roleRank : Role → Nat
  | .viewer => 1
  | .editor => 2
  | .admin => 3

/-- `isRoleAtLeast` from `app/lib/rbac-core.ts`:
`roleRank[role] >= roleRank[required]`. -/
def isRoleAtLeast (role required : Role) : Bool :=
  decide (roleRank role ≥ roleRank required)

/-- `canCreateInvoice` from `app/lib/rbac-core.ts`. -/
def canCreateInvoice (role : Role) : Bool :=
  isRoleAtLeast role .editor

/-- `canUpdateInvoice` from `app/lib/rbac-core.ts`. -/
def canUpdateInvoice (role : Role) : Bool :=
  isRoleAtLeast role .editor

/-- `canDeleteInvoice` from `app/lib/rbac-core.ts`. -/
def canDeleteInvoice (role : Role) : Bool :=
  isRoleAtLeast role .admin

/-- The session user object of `types/next-auth.d.ts`: the RBAC kernel
reads only its optional `role` field (`role?: Role`). -/
structure SessionUser where
  role : Option Role
deriving DecidableEq, Repr

/-- A NextAuth session as read by `app/lib/rbac.ts`: the optional
chaining `session?.user?.role` treats the user itself as possibly
absent. -/
structure Session where
  user : Option SessionUser
deriving DecidableEq, Repr

/-- Outcome of the external `auth()` call consumed by
`getCurrentUserRole`: either a session (or its absence), or a raised
failure of the session provider. -/
inductive AuthOutcome
  | ok (s : Option Session)
  | err (e : String)
deriving DecidableEq, Repr

/-- The pure part of `getCurrentUserRole` in `app/lib/rbac.ts`:
`session?.user?.role ?? viewer`. -/
def resolveRole (s : Option Session) : Role :=
  ((s.bind Session.user).bind SessionUser.role).getD .viewer

/-- `getCurrentUserRole` from `app/lib/rbac.ts`: awaits `auth()` with no
try/catch, so a provider failure propagates; otherwise returns
`session?.user?.role ?? viewer`. -/
def getCurrentUserRole (a : AuthOutcome) : Except String Role :=
  match a with
  | .err e => .error e
  | .ok s => .ok (resolveRole s)

/-- Failure modes observable from `requireRole`: a propagated session
provider failure, or the thrown `Response with status 403`. -/
inductive RbacFailure
  | authError (e : String)
  | forbidden (status : Nat)
deriving DecidableEq, Repr

/-- `requireRole` from `app/lib/rbac.ts`: resolves the role via
`getCurrentUserRole`, throws `Response with status 403` when
`!isRoleAtLeast(role, required)`, else returns the resolved role. -/
def requireRole (a : AuthOutcome) (required : Role) : Except RbacFailure Role :=
  match getCurrentUserRole a with
  | .error e => .error (.authError e)
  | .ok role =>
      if !isRoleAtLeast role required then .error (.forbidden 403)
      else .ok role

end Rbac

namespace RbacDup

/-- `roleRank` as re-declared by the duplicate self-contained RBAC
module (the parallel copy that also defines session resolution). -/
def roleRank : Rbac.Role → Nat
  | .viewer => 1
  | .editor => 2
  | .admin => 3

/-- `isRoleAtLeast` of the duplicate module. -/
def isRoleAtLeast (role required : Rbac.Role) : Bool :=
  decide (roleRank role ≥ roleRank required)

/-- `canCreateInvoice` of the duplicate module. -/
def canCreateInvoice (role : Rbac.Role) : Bool :=
  isRoleAtLeast role .editor

/-- `canUpdateInvoice` of the duplicate module. -/
def canUpdateInvoice (role : Rbac.Role) : Bool :=
  isRoleAtLeast role .editor

/-- `canDeleteInvoice` of the duplicate module. -/
def canDeleteInvoice (role : Rbac.Role) : Bool :=
  isRoleAtLeast role .admin

end RbacDup

namespace Actions

open Rbac

/-- Observable effects performed by the invoice server actions of
`app/lib/actions.ts`, in order. A `roleCheck` event would mark a call
into the RBAC enforcement layer (`requireRole`); the actions in the
source emit none. -/
inductive Event
  | dbCreateInvoice (customerId : String) (amountInCents : Int) (status : String)
  | dbUpdateInvoice (id : String) (customerId : String) (amountInCents : Int) (status : String)
  | dbDeleteInvoice (id : String)
  | revalidate (path : String)
  | redirectTo (path : String)
  | roleCheck (required : Role)
deriving DecidableEq, Repr

/-- Whether an event is a database write. -/
def Event.isDbWrite : Event → Bool
  | .dbCreateInvoice _ _ _ => true
  | .dbUpdateInvoice _ _ _ _ => true
  | .dbDeleteInvoice _ => true
  | _ => false

/-- Whether an event is an authorization check. -/
def Event.isRoleCheck : Event → Bool
  | .roleCheck _ => true
  | _ => false

/-- The fields of a successfully parsed invoice form
(`CreateInvoice.safeParse` / `UpdateInvoice.safeParse` success data). -/
structure InvoiceFields where
  customerId : String
  amount : Int
  status : String
deriving DecidableEq, Repr

/-- `createInvoice` from `app/lib/actions.ts`, as the trace of effects it
performs. `validated` is the outcome of `CreateInvoice.safeParse` on the
form data and `dbFails` whether the `prisma.invoices.create` call
throws. The action never consults the caller's role. -/
def createInvoice (validated : Option InvoiceFields) (dbFails : Bool) :
    List Event × Option String :=
  match validated with
  | none => ([], some "Missing Fields. Failed to create invoice")
  | some f =>
      let amountInCents := f.amount * 100
      let write := Event.dbCreateInvoice f.customerId amountInCents f.status
      if dbFails then ([write], some "Database Error: Failed to create invoice.")
      else ([write, .revalidate "/dashboard/invoices", .redirectTo "/dashboard/invoices"], none)

/-- `updateInvoice` from `app/lib/actions.ts`, as the trace of effects it
performs; like `createInvoice` it never consults the caller's role. -/
def updateInvoice (id : String) (validated : Option InvoiceFields) (dbFails : Bool) :
    List Event × Option String :=
  match validated with
  | none => ([], some "Missing Fields. Failed to create invoice")
  | some f =>
      let amountInCents := f.amount * 100
      let write := Event.dbUpdateInvoice id f.customerId amountInCents f.status
      if dbFails then ([write], some "Database Error: Failed to create invoice.")
      else ([write, .revalidate "/dashboard/invoices", .redirectTo "/dashboard/invoices"], none)

/-- `deleteInvoice` from `app/lib/actions.ts`: unconditionally deletes
the row, then revalidates; no validation, no role check. -/
def deleteInvoice (id : String) : List Event :=
  [.dbDeleteInvoice id, .revalidate "/dashboard/invoices"]

end Actions

namespace Rbac

/-- Helper: the successful-auth branch of `requireRole`, as an
if-then-else over the resolved role. -/
lemma requireRole_ok_eq (s : Option Session) (required : Role) :
    requireRole (.ok s) required =
      if isRoleAtLeast (resolveRole s) required then .ok (resolveRole s)
      else .error (.forbidden 403) := by
  by_cases h : isRoleAtLeast (resolveRole s) required <;>
    simp [requireRole, getCurrentUserRole, h]

/-- Helper: `isRoleAtLeast` holds iff the rank comparison holds. -/
lemma isRoleAtLeast_iff (role required : Role) :
    isRoleAtLeast role required = true ↔ roleRank role ≥ roleRank required := by
  simp [isRoleAtLeast]

/-- Helper: every role is at least `viewer`. -/
lemma isRoleAtLeast_viewer_true (role : Role) :
    isRoleAtLeast role .viewer = true := by
  cases role <;> rfl

end Rbac


namespace Rbac

/-- C1: when `auth()` succeeds, `requireRole required` resolves the
caller's role via `getCurrentUserRole` and throws the 403 AccessDenied
condition iff the resolved role's rank is strictly below the required
role's rank; otherwise it returns the resolved role itself. -/
theorem requireRole_denies_iff_rank_lt (s : Option Session) (required : Role) :
    (requireRole (.ok s) required =
      if isRoleAtLeast (resolveRole s) required then .ok (resolveRole s)
      else .error (.forbidden 403)) ∧
    (requireRole (.ok s) required = .error (.forbidden 403) ↔
      roleRank (resolveRole s) < roleRank required) ∧
    (requireRole (.ok s) required ≠ .error (.forbidden 403) →
      requireRole (.ok s) required = .ok (resolveRole s)) := by
  have heq := requireRole_ok_eq s required
  refine ⟨heq, ?_, ?_⟩
  · rw [heq]
    by_cases h : isRoleAtLeast (resolveRole s) required
    · have hge := (isRoleAtLeast_iff (resolveRole s) required).mp h
      simp [h]
      omega
    · have hlt : ¬ roleRank (resolveRole s) ≥ roleRank required :=
        fun hc => h ((isRoleAtLeast_iff (resolveRole s) required).mpr hc)
      simp [h]
      omega
  · rw [heq]
    by_cases h : isRoleAtLeast (resolveRole s) required <;> simp [h]

/-- C1 witness: at concrete inputs, a resolved `editor` session is
denied `admin` with the 403 condition, and granted `editor` getting back
the resolved role. -/
theorem requireRole_denies_iff_rank_lt_witness :
    requireRole (.ok (some ⟨some ⟨some .editor⟩⟩)) .admin =
        .error (.forbidden 403) ∧
      requireRole (.ok (some ⟨some ⟨some .editor⟩⟩)) .editor =
        .ok (resolveRole (some ⟨some ⟨some .editor⟩⟩)) :=
  ⟨((requireRole_denies_iff_rank_lt (some ⟨some ⟨some .editor⟩⟩) .admin).2.1).mpr
      (by decide),
    (requireRole_denies_iff_rank_lt (some ⟨some ⟨some .editor⟩⟩) .editor).2.2
      (by simp [requireRole, getCurrentUserRole, resolveRole, isRoleAtLeast, roleRank])⟩

end Rbac

namespace Rbac

/-- C3: over the closed set `{viewer, editor, admin}`, `isRoleAtLeast`
returns true iff `rank role ≥ rank required`, where rank assigns
viewer=1, editor=2, admin=3; the function is a total pure function of
its two arguments. -/
theorem isRoleAtLeast_matches_rank_order :
    (∀ role required : Role,
      isRoleAtLeast role required = true ↔ roleRank role ≥ roleRank required) ∧
    roleRank .viewer = 1 ∧ roleRank .editor = 2 ∧ roleRank .admin = 3 := by
  refine ⟨fun role required => isRoleAtLeast_iff role required, rfl, rfl, rfl⟩

/-- C4: `getCurrentUserRole` resolves normally (never to an error) when
`auth()` returns, yielding `viewer` when the session is absent, carries
no user, or the user carries no role, and yielding exactly the role on
the session when one is present. -/
theorem getCurrentUserRole_defaults_viewer :
    (∀ s : Option Session, getCurrentUserRole (.ok s) = .ok (resolveRole s)) ∧
    resolveRole none = .viewer ∧
    resolveRole (some ⟨none⟩) = .viewer ∧
    resolveRole (some ⟨some ⟨none⟩⟩) = .viewer ∧
    (∀ r : Role, resolveRole (some ⟨some ⟨some r⟩⟩) = r) :=
  ⟨fun _ => rfl, rfl, rfl, rfl, fun _ => rfl⟩

/-- C5: for every role, `canCreateInvoice` agrees with
`canUpdateInvoice`, and both equal `isRoleAtLeast role editor`. -/
theorem canCreateInvoice_eq_canUpdateInvoice :
    ∀ role : Role,
      canCreateInvoice role = canUpdateInvoice role ∧
      canCreateInvoice role = isRoleAtLeast role .editor ∧
      canUpdateInvoice role = isRoleAtLeast role .editor := by
  decide

/-- C6: `canDeleteInvoice` is strictly more restrictive than
`canUpdateInvoice`: deletion permission implies update permission at
every role, while `editor` may update but not delete; concretely delete
is false on viewer and editor and true on admin. -/
theorem canDeleteInvoice_strictly_below_update :
    (∀ role : Role, canDeleteInvoice role ≤ canUpdateInvoice role) ∧
    canUpdateInvoice .editor = true ∧
    canDeleteInvoice .editor = false ∧
    canDeleteInvoice .viewer = false ∧
    canDeleteInvoice .admin = true := by
  decide

/-- C7: the four predicates of the duplicate RBAC module, with its own
re-declared rank table, agree pointwise with those of `rbac-core`. -/
theorem duplicate_rbac_module_extensionally_equal :
    ∀ role required : Role,
      RbacDup.isRoleAtLeast role required = isRoleAtLeast role required ∧
      RbacDup.canCreateInvoice role = canCreateInvoice role ∧
      RbacDup.canUpdateInvoice role = canUpdateInvoice role ∧
      RbacDup.canDeleteInvoice role = canDeleteInvoice role := by
  decide

end Rbac

namespace Rbac

/-- C8: an absent session and a present session carrying no role (with
or without a user object) are indistinguishable: `getCurrentUserRole`
resolves both to `viewer` and `requireRole` produces identical outcomes
for every required role. -/
theorem no_session_indistinguishable_from_roleless_session :
    getCurrentUserRole (.ok none) = .ok .viewer ∧
    getCurrentUserRole (.ok (some ⟨some ⟨none⟩⟩)) =
      getCurrentUserRole (.ok none) ∧
    getCurrentUserRole (.ok (some ⟨none⟩)) = getCurrentUserRole (.ok none) ∧
    (∀ required : Role,
      requireRole (.ok (some ⟨some ⟨none⟩⟩)) required =
        requireRole (.ok none) required) ∧
    (∀ required : Role,
      requireRole (.ok (some ⟨none⟩)) required =
        requireRole (.ok none) required) :=
  ⟨rfl, rfl, rfl, fun _ => rfl, fun _ => rfl⟩

/-- C9: when the `auth()` read itself fails, `getCurrentUserRole`
propagates exactly that failure, substituting no default role, and
`requireRole` surfaces it unchanged rather than an AccessDenied. -/
theorem getCurrentUserRole_propagates_auth_failure :
    (∀ e : String, getCurrentUserRole (.err e) = .error e) ∧
    (∀ (e : String) (required : Role),
      requireRole (.err e) required = .error (.authError e)) :=
  ⟨fun _ => rfl, fun _ _ => rfl⟩

/-- C10: `viewer` is the bottom of the role order — every role is at
least `viewer` — so `requireRole viewer` never raises AccessDenied and
returns whatever role was resolved, for every session state. -/
theorem requireRole_viewer_never_denies :
    (∀ role : Role, isRoleAtLeast role .viewer = true) ∧
    (∀ s : Option Session, requireRole (.ok s) .viewer = .ok (resolveRole s)) := by
  refine ⟨isRoleAtLeast_viewer_true, fun s => ?_⟩
  rw [requireRole_ok_eq, isRoleAtLeast_viewer_true]
  simp

end Rbac

namespace Actions

/-- C2 (refuted by the code): the invoice actions of
`app/lib/actions.ts` perform their database writes without any prior
authorization check — no trace of `createInvoice`, `updateInvoice` or
`deleteInvoice` contains a role check, and `deleteInvoice` issues its
delete for every caller, a `viewer` included; on the concrete input
`"inv-1"` the delete write is the very first effect. -/
theorem deleteInvoice_writes_without_role_check :
    deleteInvoice "inv-1" =
      [.dbDeleteInvoice "inv-1", .revalidate "/dashboard/invoices"] ∧
    (deleteInvoice "inv-1").any Event.isDbWrite = true ∧
    (deleteInvoice "inv-1").any Event.isRoleCheck = false ∧
    (∀ id : String, (deleteInvoice id).any Event.isRoleCheck = false) ∧
    (∀ id : String, (deleteInvoice id).head? = some (.dbDeleteInvoice id)) ∧
    (∀ (v : Option InvoiceFields) (b : Bool),
      (createInvoice v b).1.any Event.isRoleCheck = false) ∧
    (∀ (id : String) (v : Option InvoiceFields) (b : Bool),
      (updateInvoice id v b).1.any Event.isRoleCheck = false) ∧
    (∀ (f : InvoiceFields) (b : Bool),
      (createInvoice (some f) b).1.any Event.isDbWrite = true) := by
  refine ⟨rfl, rfl, rfl, fun _ => rfl, fun _ => rfl, ?_, ?_, ?_⟩
  · intro v b
    cases v <;> cases b <;> rfl
  · intro id v b
    cases v <;> cases b <;> rfl
  · intro f b
    cases b <;> rfl

end Actions
